import Mathlib

/-!
Shallow embedding of the per-item drag-and-drop interaction controller of
react-sortful (the `Item` component) together with the geometry and ancestry
helpers it calls.

The handlers of the `Item` component mutate shared list state through a sequence of
primitive effects (context writes, DOM style changes, outward callbacks).  Each
handler is embedded as a pure function returning the ordered list of effects it
performs; `applyEffects` folds the state-writing effects over the shared list
state.  Keeping the effect trace explicit preserves the order in which the
source performs writes and fires callbacks, which some properties depend on.

Identifiers are embedded as `Nat` (the source uses opaque unique keys), pixel
coordinates as `ℤ`, and optional values as `Option`.  The stackable-area
threshold stays a rational fraction of the element extent; its comparison is
expressed by cross-multiplication so that it remains executable.
-/

namespace Sortful

/-- Direction of a list: `direction` configuration value (vertical or horizontal). -/
inductive Direction where
  | vertical
  | horizontal
deriving DecidableEq, Repr

/-- Drop-line direction relative to the hovered item along the layout axis. -/
inductive DropLineDirection where
  | before
  | after
deriving DecidableEq, Repr

/-- Bounding geometry of a rendered element, read from the layout at interaction time. -/
structure Rect where
  top : ℤ
  left : ℤ
  width : ℤ
  height : ℤ
deriving DecidableEq, Repr

/-- Snapshot of the identity of an item, position, ancestry and geometry
(the `NodeMeta` record built by `getNodeMeta`). -/
structure NodeMeta where
  identifier : Nat
  groupIdentifier : Option Nat
  ancestorIdentifiers : List Nat
  index : Nat
  isGroup : Bool
  rect : Rect
deriving DecidableEq, Repr

/-- Pending drop target: `index = none` with a defined `groupIdentifier`
means stack into that group rather than insert at a position. -/
structure DestinationMeta where
  groupIdentifier : Option Nat
  index : Option Nat
deriving DecidableEq, Repr

/-- Payload of the `onDragStart` callback. -/
structure DragStartCallbackMeta where
  identifier : Nat
  groupIdentifier : Option Nat
  index : Nat
  isGroup : Bool
deriving DecidableEq, Repr

/-- Payload of the `onDragEnd` callback: origin plus resolved destination. -/
structure DragEndCallbackMeta where
  identifier : Nat
  groupIdentifier : Option Nat
  index : Nat
  isGroup : Bool
  nextGroupIdentifier : Option Nat
  nextIndex : Option Nat
deriving DecidableEq, Repr

/-- Payload of the `onStackGroup` callback; `nextGroupIdentifier = none` signals un-stacking. -/
structure StackGroupCallbackMeta where
  identifier : Nat
  groupIdentifier : Option Nat
  index : Nat
  isGroup : Bool
  nextGroupIdentifier : Option Nat
deriving DecidableEq, Repr

/-- Primitive effect performed by a handler, in source order: shared-state writes,
DOM side effects (body style, ghost element, drop-line style) and outward callbacks. -/
inductive Effect where
  | setBodyStyle
  | clearBodyStyle
  | initializeGhostElementStyle
  | clearGhostElementStyle
  | moveGhostElement (movement : ℤ × ℤ)
  | setDropLineElementStyle (absoluteXY : ℤ × ℤ)
  | setDraggingNodeMeta (m : Option NodeMeta)
  | setIsVisibleDropLineElement (b : Bool)
  | setStackedGroupIdentifier (g : Option Nat)
  | setHoveredNodeMeta (m : Option NodeMeta)
  | setDestinationMeta (d : Option DestinationMeta)
  | callbackDragStart (m : DragStartCallbackMeta)
  | callbackDragEnd (m : DragEndCallbackMeta)
  | callbackStackGroup (m : StackGroupCallbackMeta)
deriving DecidableEq, Repr

/-- Mutable fields of the list context touched by the item handlers. -/
structure ListState where
  draggingNodeMeta : Option NodeMeta
  hoveredNodeMeta : Option NodeMeta
  destinationMeta : Option DestinationMeta
  stackedGroupIdentifier : Option Nat
  isVisibleDropLineElement : Bool
deriving DecidableEq, Repr

/-- List context state before any interaction. -/
def initialListState : ListState :=
  { draggingNodeMeta := none
    hoveredNodeMeta := none
    destinationMeta := none
    stackedGroupIdentifier := none
    isVisibleDropLineElement := false }

/-- Applies one effect to the list state; DOM and callback effects leave it unchanged. -/
def applyEffect (st : ListState) : Effect → ListState
  | .setDraggingNodeMeta m => { st with draggingNodeMeta := m }
  | .setIsVisibleDropLineElement b => { st with isVisibleDropLineElement := b }
  | .setStackedGroupIdentifier g => { st with stackedGroupIdentifier := g }
  | .setHoveredNodeMeta m => { st with hoveredNodeMeta := m }
  | .setDestinationMeta d => { st with destinationMeta := d }
  | _ => st

/-- Applies the effect trace of a handler to the list state, in order. -/
def applyEffects (st : ListState) (effects : List Effect) : ListState :=
  effects.foldl applyEffect st

/-- Static data an `Item` instance closes over: its props, the surrounding group
context, and the list-wide configuration it reads. -/
structure ItemCtx where
  identifier : Nat
  index : Nat
  isGroup : Bool
  propIsLocked : Bool
  isLonely : Bool
  groupIdentifier : Option Nat
  groupAncestorIdentifiers : List Nat
  childIdentifiers : List Nat
  isDisabled : Bool
  direction : Direction
  stackableAreaThreshold : ℚ
deriving DecidableEq, Repr

/-- Ancestor chain variable built by the component: the chain of the group context
with the own identifier of the item appended (source line 48). -/
def ancestorIdentifiers (ctx : ItemCtx) : List Nat :=
  ctx.groupAncestorIdentifiers ++ [ctx.identifier]

/-- Effective lock flag: the list-wide disabled flag or the own lock prop of the item. -/
def isLocked (ctx : ItemCtx) : Bool :=
  ctx.isDisabled || ctx.propIsLocked

/-- Modelled from the spec: `checkIsAncestorItem` (imported from a module that is
not part of the given sources) is true when the candidate identifier appears
anywhere in the ordered ancestor list. -/
def checkIsAncestorItem (candidateIdentifier : Nat) (ancestors : List Nat) : Bool :=
  ancestors.contains candidateIdentifier

/-- Modelled from the spec: `getNodeMeta` (imported from a module that is not part
of the given sources) reads the current bounding geometry of the element and packages
it with the supplied identity fields into an immutable snapshot. -/
def getNodeMeta (rect : Rect) (identifier : Nat) (groupIdentifier : Option Nat)
    (ancestors : List Nat) (index : Nat) (isGroup : Bool) : NodeMeta :=
  { identifier := identifier
    groupIdentifier := groupIdentifier
    ancestorIdentifiers := ancestors
    index := index
    isGroup := isGroup
    rect := rect }

/-- Modelled from the spec: `getDropLineDirectionFromXY` (imported from a module
that is not part of the given sources) compares the pointer coordinate on the
layout axis with the midpoint of the hovered element bounds: before the
midpoint means `before`, otherwise `after`. -/
def getDropLineDirectionFromXY (absoluteXY : ℤ × ℤ) (hoveredNodeMeta : NodeMeta)
    (direction : Direction) : DropLineDirection :=
  match direction with
  | .vertical =>
      if 2 * absoluteXY.2 < 2 * hoveredNodeMeta.rect.top + hoveredNodeMeta.rect.height
      then .before else .after
  | .horizontal =>
      if 2 * absoluteXY.1 < 2 * hoveredNodeMeta.rect.left + hoveredNodeMeta.rect.width
      then .before else .after

/-- Modelled from the spec: `checkIsInStackableArea` (imported from a module that
is not part of the given sources) is true when the pointer lies within a central
band of the hovered element bounds along the layout axis, sized as the
threshold fraction of the element extent and centered on the element: the
distance from the pointer to the element midpoint is at most half the
threshold times the extent, written cross-multiplied over the integers. -/
def checkIsInStackableArea (absoluteXY : ℤ × ℤ) (hoveredNodeMeta : NodeMeta)
    (threshold : ℚ) (direction : Direction) : Bool :=
  match direction with
  | .vertical =>
      |2 * absoluteXY.2 - (2 * hoveredNodeMeta.rect.top + hoveredNodeMeta.rect.height)|
          * (threshold.den : ℤ)
        ≤ threshold.num * hoveredNodeMeta.rect.height
  | .horizontal =>
      |2 * absoluteXY.1 - (2 * hoveredNodeMeta.rect.left + hoveredNodeMeta.rect.width)|
          * (threshold.den : ℤ)
        ≤ threshold.num * hoveredNodeMeta.rect.width

/-- Modelled from the spec: `getDropLinePositionItemIndex` (imported from a module
that is not part of the given sources) maps `before` to the hovered index and
`after` to the hovered index plus one, then, when both items share the same
group and the index of the dragging item lies below the insertion point, subtracts
one to account for removing the dragged item before reinsertion; no correction
applies when the groups differ. -/
def getDropLinePositionItemIndex (dropLineDirection : DropLineDirection)
    (draggingItemIndex : Nat) (draggingItemGroupIdentifier : Option Nat)
    (hoveredItemIndex : Nat) (hoveredItemGroupIdentifier : Option Nat) : Nat :=
  let nextIndex :=
    match dropLineDirection with
    | .before => hoveredItemIndex
    | .after => hoveredItemIndex + 1
  if draggingItemGroupIdentifier = hoveredItemGroupIdentifier ∧ draggingItemIndex < nextIndex
  then nextIndex - 1
  else nextIndex

/-- Drag-start handler (source lines 63 to 103): body style and ghost setup,
fresh `NodeMeta` stored as the dragging node, then the drag-start callback. -/
def onDragStart (ctx : ItemCtx) (rect : Rect) : List Effect :=
  let nodeMeta :=
    getNodeMeta rect ctx.identifier ctx.groupIdentifier (ancestorIdentifiers ctx) ctx.index
      ctx.isGroup
  [ .setBodyStyle
  , .initializeGhostElementStyle
  , .setDraggingNodeMeta (some nodeMeta)
  , .callbackDragStart
      { identifier := nodeMeta.identifier
        groupIdentifier := nodeMeta.groupIdentifier
        index := nodeMeta.index
        isGroup := nodeMeta.isGroup } ]

/-- Drag-end handler (source lines 104 to 125): reverts drag affordances, fires the
drag-end callback with the pending destination (falling back to the own
group and index), then resets every transient context value. -/
def onDragEnd (ctx : ItemCtx) (st : ListState) : List Effect :=
  let destinationMeta := st.destinationMeta
  [ .clearBodyStyle
  , .clearGhostElementStyle
  , .callbackDragEnd
      { identifier := ctx.identifier
        groupIdentifier := ctx.groupIdentifier
        index := ctx.index
        isGroup := ctx.isGroup
        nextGroupIdentifier :=
          match destinationMeta with
          | some d => d.groupIdentifier
          | none => ctx.groupIdentifier
        nextIndex :=
          match destinationMeta with
          | some d => d.index
          | none => some ctx.index }
  , .setDraggingNodeMeta none
  , .setIsVisibleDropLineElement false
  , .setStackedGroupIdentifier none
  , .setHoveredNodeMeta none
  , .setDestinationMeta none ]

/-- Hover handler (source lines 127 to 154): clears hover and destination state when
no drag is active, when this item is the dragging item, or when the dragging item
is an ancestor of this item; otherwise records a fresh hovered `NodeMeta` and
shows the drop line. -/
def onHover (ctx : ItemCtx) (st : ListState) (rect : Rect) : List Effect :=
  let isNeededInitialization :=
    match st.draggingNodeMeta with
    | none => true
    | some draggingNodeMeta =>
        ctx.identifier == draggingNodeMeta.identifier
          || checkIsAncestorItem draggingNodeMeta.identifier (ancestorIdentifiers ctx)
  if isNeededInitialization then
    [ .setIsVisibleDropLineElement false
    , .setHoveredNodeMeta none
    , .setDestinationMeta none ]
  else
    [ .setIsVisibleDropLineElement true
    , .setHoveredNodeMeta
        (some (getNodeMeta rect ctx.identifier ctx.groupIdentifier (ancestorIdentifiers ctx)
          ctx.index ctx.isGroup)) ]

/-- Stack branch of the move resolution (source lines 155 to 175): hides the drop
line, marks this group as stacked, records a stack destination, and fires the
stack callback naming the hovered node. -/
def onMoveForStackableGroup (ctx : ItemCtx) (hoveredNodeMeta : NodeMeta) : List Effect :=
  [ .setIsVisibleDropLineElement false
  , .setStackedGroupIdentifier (some ctx.identifier)
  , .setDestinationMeta (some { groupIdentifier := some ctx.identifier, index := none })
  , .callbackStackGroup
      { identifier := ctx.identifier
        groupIdentifier := ctx.groupIdentifier
        index := ctx.index
        isGroup := ctx.isGroup
        nextGroupIdentifier := some hoveredNodeMeta.identifier } ]

/-- Condition under which the previous destination was a stack-into-group
(source lines 200 to 202): defined destination with a defined group and no index. -/
def isComeFromStackedGroup (st : ListState) : Bool :=
  match st.destinationMeta with
  | some d => d.groupIdentifier.isSome && d.index.isNone
  | none => false

/-- Reorder branch of the move resolution (source lines 176 to 226): lonely items
clear everything; otherwise the drop line is shown and styled, the next index is
resolved, an un-stack callback fires when the previous destination was a stack,
and the stacked marker and destination are rewritten. -/
def onMoveForItems (ctx : ItemCtx) (st : ListState) (draggingNodeMeta : NodeMeta)
    (hoveredNodeMeta : NodeMeta) (absoluteXY : ℤ × ℤ) : List Effect :=
  if ctx.isLonely then
    [ .setIsVisibleDropLineElement false
    , .setDestinationMeta none ]
  else
    let dropLineDirection := getDropLineDirectionFromXY absoluteXY hoveredNodeMeta ctx.direction
    let nextIndex :=
      getDropLinePositionItemIndex dropLineDirection draggingNodeMeta.index
        draggingNodeMeta.groupIdentifier hoveredNodeMeta.index hoveredNodeMeta.groupIdentifier
    (if draggingNodeMeta.index ≠ hoveredNodeMeta.index
     then [Effect.setIsVisibleDropLineElement true] else [])
      ++ [ .setDropLineElementStyle absoluteXY ]
      ++ (if isComeFromStackedGroup st then
            [Effect.callbackStackGroup
              { identifier := ctx.identifier
                groupIdentifier := ctx.groupIdentifier
                index := ctx.index
                isGroup := ctx.isGroup
                nextGroupIdentifier := none }]
          else [])
      ++ [ .setStackedGroupIdentifier none
         , .setDestinationMeta (some { groupIdentifier := ctx.groupIdentifier
                                       index := some nextIndex }) ]

/-- Move resolution dispatcher (source lines 227 to 246): requires an active drag
and a hovered node; takes the stack branch exactly when this item is a group
with no registered children and the pointer is in the stackable area. -/
def onMove (ctx : ItemCtx) (st : ListState) (absoluteXY : ℤ × ℤ) : List Effect :=
  match st.draggingNodeMeta with
  | none => []
  | some draggingNodeMeta =>
      match st.hoveredNodeMeta with
      | none => []
      | some hoveredNodeMeta =>
          let hasNoItems := ctx.childIdentifiers.isEmpty
          if ctx.isGroup && hasNoItems
              && checkIsInStackableArea absoluteXY hoveredNodeMeta ctx.stackableAreaThreshold
                ctx.direction then
            onMoveForStackableGroup ctx hoveredNodeMeta
          else
            onMoveForItems ctx st draggingNodeMeta hoveredNodeMeta absoluteXY

/-- Gesture wrapper for hover (source lines 249 to 257): no-op unless a drag is active. -/
def binderOnHover (ctx : ItemCtx) (st : ListState) (rect : Rect) : List Effect :=
  match st.draggingNodeMeta with
  | none => []
  | some _ => onHover ctx st rect

/-- Gesture wrapper for move (source lines 258 to 270): suppressed when no drag is
active, when this item has children and is an ancestor of the hovered node, when
this item is the dragging item, or when the dragging item is an ancestor of
this item. -/
def binderOnMove (ctx : ItemCtx) (st : ListState) (absoluteXY : ℤ × ℤ) : List Effect :=
  match st.draggingNodeMeta with
  | none => []
  | some draggingNodeMeta =>
      let hasItems := !ctx.childIdentifiers.isEmpty
      let hoveredNodeAncestors :=
        match st.hoveredNodeMeta with
        | some m => m.ancestorIdentifiers
        | none => []
      if hasItems && checkIsAncestorItem ctx.identifier hoveredNodeAncestors then []
      else if ctx.identifier == draggingNodeMeta.identifier then []
      else if checkIsAncestorItem draggingNodeMeta.identifier (ancestorIdentifiers ctx) then []
      else onMove ctx st absoluteXY

/-- Draggable gesture wrapper for drag start (source lines 273 to 284):
suppressed when the item is locked. -/
def draggableOnDragStart (ctx : ItemCtx) (rect : Rect) : List Effect :=
  if isLocked ctx then [] else onDragStart ctx rect

/-- Draggable gesture wrapper for continuous drag (source lines 285 to 290):
suppressed when locked or when the pointer is not down; otherwise only moves
the ghost element by the movement delta. -/
def draggableOnDrag (ctx : ItemCtx) (down : Bool) (movement : ℤ × ℤ) : List Effect :=
  if isLocked ctx then []
  else if !down then []
  else [ .moveGhostElement movement ]

/-- Draggable gesture wrapper for drag end (source lines 291 to 295):
suppressed when the item is locked. -/
def draggableOnDragEnd (ctx : ItemCtx) (st : ListState) : List Effect :=
  if isLocked ctx then [] else onDragEnd ctx st


/-- Concrete bounding box used by the witness statements. -/
def wRect : Rect := { top := 0, left := 0, width := 100, height := 20 }

/-- Concrete dragging node used by the witness statements: item 7 at index 0 of group 0. -/
def wDragMeta : NodeMeta := getNodeMeta wRect 7 (some 0) [0, 7] 0 false

/-- Concrete hovered node used by the witness statements: empty group 9 at index 2 of group 0. -/
def wGroupMeta : NodeMeta := getNodeMeta wRect 9 (some 0) [0, 9] 2 true

/-- Concrete plain item context used by the witness statements. -/
def wCtxChild : ItemCtx :=
  { identifier := 5
    index := 1
    isGroup := false
    propIsLocked := false
    isLonely := false
    groupIdentifier := some 0
    groupAncestorIdentifiers := [0]
    childIdentifiers := []
    isDisabled := false
    direction := .vertical
    stackableAreaThreshold := mkRat 1 2 }

/-- Concrete empty-group item context used by the witness statements. -/
def wCtxGroup : ItemCtx := { wCtxChild with identifier := 9, isGroup := true, index := 2 }

/-- Concrete context of the dragging item itself, used by the witness statements. -/
def wCtxDragging : ItemCtx := { wCtxChild with identifier := 7, index := 0 }

/-- Concrete locked item context used by the witness statements. -/
def wCtxLocked : ItemCtx := { wCtxChild with propIsLocked := true }

/-- Concrete lonely item context used by the witness statements. -/
def wCtxLonely : ItemCtx := { wCtxChild with isLonely := true }

/-- List state with an active drag and no hover, used by the witness statements. -/
def wStDrag : ListState := { initialListState with draggingNodeMeta := some wDragMeta }

/-- List state with an active drag hovering the empty group, used by the witness statements. -/
def wStDragHover : ListState := { wStDrag with hoveredNodeMeta := some wGroupMeta }

/-- List state in which the previous move stacked into group 9, used by the witness statements. -/
def wStStacked : ListState :=
  { wStDragHover with
      destinationMeta := some { groupIdentifier := some 9, index := none }
      stackedGroupIdentifier := some 9 }

/-- C3: resolving a reorder destination with direction after inside one group, when the
dragging index is below the hovered index, yields the hovered index itself (the slot
freed by removing the dragged item is accounted for); across different groups no
correction applies and after yields the hovered index plus one; in particular dragging
index 0 onto hovered index 3 in the same group with direction after resolves to 3. -/
theorem dropLineIndex_shift_correction :
    (∀ (draggingItemIndex hoveredItemIndex : Nat) (g : Option Nat),
        draggingItemIndex < hoveredItemIndex →
        getDropLinePositionItemIndex .after draggingItemIndex g hoveredItemIndex g
          = hoveredItemIndex)
    ∧ (∀ (draggingItemIndex hoveredItemIndex : Nat) (g g2 : Option Nat), g ≠ g2 →
        getDropLinePositionItemIndex .after draggingItemIndex g hoveredItemIndex g2
          = hoveredItemIndex + 1)
    ∧ getDropLinePositionItemIndex .after 0 (some 0) 3 (some 0) = 3 := by
  refine ⟨?_, ?_, by decide⟩
  · intro dIdx hIdx g hlt
    unfold getDropLinePositionItemIndex
    rw [if_pos ⟨rfl, Nat.lt_succ_of_lt hlt⟩]
    rfl
  · intro dIdx hIdx g g2 hne
    unfold getDropLinePositionItemIndex
    rw [if_neg]
    rintro ⟨hg, -⟩
    exact hne hg

/-- Witness for C3 at concrete indices and groups. -/
theorem dropLineIndex_shift_correction_witness :
    getDropLinePositionItemIndex .after 1 (some 2) 4 (some 2) = 4
    ∧ getDropLinePositionItemIndex .after 1 (some 2) 4 (some 3) = 5 :=
  ⟨dropLineIndex_shift_correction.1 1 4 (some 2) (by decide),
   dropLineIndex_shift_correction.2.1 1 4 (some 2) (some 3) (by decide)⟩

/-- C7: on the reorder path a lonely item immediately hides the drop line, clears the
destination and performs nothing else, so it is draggable but never a reorder target. -/
theorem lonely_item_clears_destination (ctx : ItemCtx) (st : ListState)
    (draggingNodeMeta hoveredNodeMeta : NodeMeta) (absoluteXY : ℤ × ℤ)
    (hlonely : ctx.isLonely = true) :
    onMoveForItems ctx st draggingNodeMeta hoveredNodeMeta absoluteXY
      = [ .setIsVisibleDropLineElement false
        , .setDestinationMeta none ] := by
  simp [onMoveForItems, hlonely]

/-- Witness for C7 on a concrete lonely item. -/
theorem lonely_item_clears_destination_witness :
    onMoveForItems wCtxLonely wStDragHover wDragMeta wGroupMeta (50, 1)
      = [ .setIsVisibleDropLineElement false
        , .setDestinationMeta none ] :=
  lonely_item_clears_destination wCtxLonely wStDragHover wDragMeta wGroupMeta (50, 1) rfl

/-- C4: a drag end on an unlocked item with no destination ever recorded reports a
destination equal to the origin: the next group is the current group of the item and
the next index is its current index. -/
theorem dragEnd_without_destination_is_noop (ctx : ItemCtx) (st : ListState)
    (hl : isLocked ctx = false) (hdest : st.destinationMeta = none) :
    draggableOnDragEnd ctx st
      = [ .clearBodyStyle
        , .clearGhostElementStyle
        , .callbackDragEnd
            { identifier := ctx.identifier
              groupIdentifier := ctx.groupIdentifier
              index := ctx.index
              isGroup := ctx.isGroup
              nextGroupIdentifier := ctx.groupIdentifier
              nextIndex := some ctx.index }
        , .setDraggingNodeMeta none
        , .setIsVisibleDropLineElement false
        , .setStackedGroupIdentifier none
        , .setHoveredNodeMeta none
        , .setDestinationMeta none ] := by
  simp [draggableOnDragEnd, hl, onDragEnd, hdest]

/-- Witness for C4 on a concrete unlocked item with an untouched destination. -/
theorem dragEnd_without_destination_is_noop_witness :
    draggableOnDragEnd wCtxChild wStDrag
      = [ .clearBodyStyle
        , .clearGhostElementStyle
        , .callbackDragEnd
            { identifier := 5
              groupIdentifier := some 0
              index := 1
              isGroup := false
              nextGroupIdentifier := some 0
              nextIndex := some 1 }
        , .setDraggingNodeMeta none
        , .setIsVisibleDropLineElement false
        , .setStackedGroupIdentifier none
        , .setHoveredNodeMeta none
        , .setDestinationMeta none ] :=
  dragEnd_without_destination_is_noop wCtxChild wStDrag rfl rfl

/-- C5: after a drag end on an unlocked item every transient list value is reset:
dragging, hovered, destination and stacked-group state are undefined and the drop
line is not visible. -/
theorem dragEnd_resets_transient_state (ctx : ItemCtx) (st : ListState)
    (hl : isLocked ctx = false) :
    (applyEffects st (draggableOnDragEnd ctx st)).draggingNodeMeta = none
    ∧ (applyEffects st (draggableOnDragEnd ctx st)).hoveredNodeMeta = none
    ∧ (applyEffects st (draggableOnDragEnd ctx st)).destinationMeta = none
    ∧ (applyEffects st (draggableOnDragEnd ctx st)).stackedGroupIdentifier = none
    ∧ (applyEffects st (draggableOnDragEnd ctx st)).isVisibleDropLineElement = false := by
  simp [draggableOnDragEnd, hl, onDragEnd, applyEffects, applyEffect]

/-- Witness for C5 on a concrete unlocked item and a fully loaded state. -/
theorem dragEnd_resets_transient_state_witness :
    (applyEffects wStStacked (draggableOnDragEnd wCtxChild wStStacked)).draggingNodeMeta = none
    ∧ (applyEffects wStStacked (draggableOnDragEnd wCtxChild wStStacked)).hoveredNodeMeta = none
    ∧ (applyEffects wStStacked (draggableOnDragEnd wCtxChild wStStacked)).destinationMeta = none
    ∧ (applyEffects wStStacked
        (draggableOnDragEnd wCtxChild wStStacked)).stackedGroupIdentifier = none
    ∧ (applyEffects wStStacked
        (draggableOnDragEnd wCtxChild wStStacked)).isVisibleDropLineElement = false :=
  dragEnd_resets_transient_state wCtxChild wStStacked rfl

/-- C10: the continuous drag handler is a no-op when the pointer is not down, moves only
the ghost element by the movement delta when it is, and never changes any list context
value whatever its inputs. -/
theorem drag_only_moves_ghost (ctx : ItemCtx) (st : ListState) (down : Bool)
    (movement : ℤ × ℤ) :
    (down = false → draggableOnDrag ctx down movement = [])
    ∧ (isLocked ctx = false → down = true →
        draggableOnDrag ctx down movement = [ .moveGhostElement movement ])
    ∧ applyEffects st (draggableOnDrag ctx down movement) = st := by
  refine ⟨fun hd => ?_, fun hl hd => ?_, ?_⟩
  · simp [draggableOnDrag, hd]
  · simp [draggableOnDrag, hl, hd]
  · unfold draggableOnDrag
    by_cases hl : isLocked ctx = true
    · simp [hl, applyEffects]
    · by_cases hd : down = true
      · simp [hl, hd, applyEffects, applyEffect]
      · simp [hl, hd, applyEffects]

/-- Witness for C10 on a concrete unlocked item with the pointer down. -/
theorem drag_only_moves_ghost_witness :
    draggableOnDrag wCtxChild true (3, 4) = [ .moveGhostElement (3, 4) ]
    ∧ applyEffects wStDrag (draggableOnDrag wCtxChild true (3, 4)) = wStDrag :=
  ⟨(drag_only_moves_ghost wCtxChild wStDrag true (3, 4)).2.1 rfl rfl,
   (drag_only_moves_ghost wCtxChild wStDrag true (3, 4)).2.2⟩

/-- C1: while a drag is active, when the hovered item is the dragging item itself or
the dragging item appears in the ancestor chain of the hovered item, the hover handler
hides the drop line and clears the hovered and destination state, and the move binder
performs no effect at all, so no destination targeting the dragging item or its
relatives is ever recorded. -/
theorem guard_against_self_and_descendant_targets
    (ctx : ItemCtx) (st : ListState) (rect : Rect) (absoluteXY : ℤ × ℤ) (d : NodeMeta)
    (hdrag : st.draggingNodeMeta = some d)
    (hrel : d.identifier = ctx.identifier
      ∨ checkIsAncestorItem d.identifier (ancestorIdentifiers ctx) = true) :
    onHover ctx st rect
        = [ .setIsVisibleDropLineElement false
          , .setHoveredNodeMeta none
          , .setDestinationMeta none ]
      ∧ binderOnMove ctx st absoluteXY = [] := by
  rcases hrel with h | h
  · exact ⟨by simp [onHover, hdrag, h], by simp [binderOnMove, hdrag, h]⟩
  · exact ⟨by simp [onHover, hdrag, h], by simp [binderOnMove, hdrag, h]⟩

/-- Witness for C1: the dragging item hovering itself is cleared and its move is a no-op. -/
theorem guard_against_self_and_descendant_targets_witness :
    onHover wCtxDragging wStDrag wRect
        = [ .setIsVisibleDropLineElement false
          , .setHoveredNodeMeta none
          , .setDestinationMeta none ]
      ∧ binderOnMove wCtxDragging wStDrag (50, 10) = [] :=
  guard_against_self_and_descendant_targets wCtxDragging wStDrag wRect (50, 10) wDragMeta
    rfl (Or.inl rfl)

/-- C2: given an active drag and a hovered node belonging to the item running the move
handler, the stack path is taken exactly when the hovered item is a group, its live
child set is empty and the pointer is in the stackable area; the stack path hides the
drop line, marks the hovered group as stacked, records a stack destination on it and
fires the stack callback towards it; failing any condition, the reorder path runs. -/
theorem stack_path_iff_three_conditions
    (ctx : ItemCtx) (st : ListState) (absoluteXY : ℤ × ℤ) (d h : NodeMeta)
    (hdrag : st.draggingNodeMeta = some d)
    (hhov : st.hoveredNodeMeta = some h)
    (hid : h.identifier = ctx.identifier)
    (hgrp : h.isGroup = ctx.isGroup) :
    (h.isGroup = true ∧ ctx.childIdentifiers = []
        ∧ checkIsInStackableArea absoluteXY h ctx.stackableAreaThreshold ctx.direction = true →
      onMove ctx st absoluteXY
        = [ .setIsVisibleDropLineElement false
          , .setStackedGroupIdentifier (some h.identifier)
          , .setDestinationMeta (some { groupIdentifier := some h.identifier, index := none })
          , .callbackStackGroup
              { identifier := h.identifier
                groupIdentifier := ctx.groupIdentifier
                index := ctx.index
                isGroup := h.isGroup
                nextGroupIdentifier := some h.identifier } ])
    ∧ (¬ (h.isGroup = true ∧ ctx.childIdentifiers = []
        ∧ checkIsInStackableArea absoluteXY h ctx.stackableAreaThreshold ctx.direction = true) →
      onMove ctx st absoluteXY = onMoveForItems ctx st d h absoluteXY) := by
  have hcond :
      (ctx.isGroup && ctx.childIdentifiers.isEmpty
          && checkIsInStackableArea absoluteXY h ctx.stackableAreaThreshold ctx.direction) = true
        ↔ (h.isGroup = true ∧ ctx.childIdentifiers = []
            ∧ checkIsInStackableArea absoluteXY h ctx.stackableAreaThreshold ctx.direction
              = true) := by
    simp [Bool.and_eq_true, List.isEmpty_iff, hgrp, and_assoc]
  constructor
  · intro hc
    simp only [onMove, hdrag, hhov]
    rw [if_pos (hcond.mpr hc)]
    simp [onMoveForStackableGroup, hid, hgrp]
  · intro hc
    have hne :
        ¬ ((ctx.isGroup && ctx.childIdentifiers.isEmpty
            && checkIsInStackableArea absoluteXY h ctx.stackableAreaThreshold ctx.direction)
          = true) := fun hcc => hc (hcond.mp hcc)
    simp only [onMove, hdrag, hhov]
    rw [if_neg hne]

/-- Witness for C2: hovering the concrete empty group with the pointer centered takes
the stack path with the expected effects. -/
theorem stack_path_iff_three_conditions_witness :
    (wGroupMeta.isGroup = true ∧ wCtxGroup.childIdentifiers = []
      ∧ checkIsInStackableArea (50, 10) wGroupMeta wCtxGroup.stackableAreaThreshold
          wCtxGroup.direction = true)
    ∧ onMove wCtxGroup wStDragHover (50, 10)
        = [ .setIsVisibleDropLineElement false
          , .setStackedGroupIdentifier (some wGroupMeta.identifier)
          , .setDestinationMeta (some { groupIdentifier := some wGroupMeta.identifier
                                        index := none })
          , .callbackStackGroup
              { identifier := wGroupMeta.identifier
                groupIdentifier := wCtxGroup.groupIdentifier
                index := wCtxGroup.index
                isGroup := wGroupMeta.isGroup
                nextGroupIdentifier := some wGroupMeta.identifier } ] := by
  have hstack := stack_path_iff_three_conditions wCtxGroup wStDragHover (50, 10)
    wDragMeta wGroupMeta rfl rfl rfl rfl
  exact ⟨⟨rfl, rfl, by decide⟩, hstack.1 ⟨rfl, rfl, by decide⟩⟩

/-- C6: on the reorder path of a non-lonely item, when the previous destination was a
stack into a group, the trace ends with the un-stack callback followed by clearing the
stacked marker and overwriting the destination, and no write to the stacked marker or
the destination occurs earlier in the trace: the un-stack callback fires before both. -/
theorem unstack_callback_fires_before_overwrite
    (ctx : ItemCtx) (st : ListState) (draggingNodeMeta hoveredNodeMeta : NodeMeta)
    (absoluteXY : ℤ × ℤ)
    (hlonely : ctx.isLonely = false)
    (hstacked : isComeFromStackedGroup st = true) :
    ∃ pre,
      onMoveForItems ctx st draggingNodeMeta hoveredNodeMeta absoluteXY
        = pre
          ++ [ Effect.callbackStackGroup
                { identifier := ctx.identifier
                  groupIdentifier := ctx.groupIdentifier
                  index := ctx.index
                  isGroup := ctx.isGroup
                  nextGroupIdentifier := none }
             , Effect.setStackedGroupIdentifier none
             , Effect.setDestinationMeta
                (some { groupIdentifier := ctx.groupIdentifier
                        index := some (getDropLinePositionItemIndex
                          (getDropLineDirectionFromXY absoluteXY hoveredNodeMeta ctx.direction)
                          draggingNodeMeta.index draggingNodeMeta.groupIdentifier
                          hoveredNodeMeta.index hoveredNodeMeta.groupIdentifier) }) ]
      ∧ ∀ e ∈ pre,
          (∀ g, e ≠ Effect.setStackedGroupIdentifier g)
          ∧ (∀ dm, e ≠ Effect.setDestinationMeta dm) := by
  refine ⟨(if draggingNodeMeta.index ≠ hoveredNodeMeta.index
        then [Effect.setIsVisibleDropLineElement true] else [])
      ++ [Effect.setDropLineElementStyle absoluteXY], ?_, ?_⟩
  · simp [onMoveForItems, hlonely, hstacked]
  · intro e he
    have hcases : e = Effect.setIsVisibleDropLineElement true
        ∨ e = Effect.setDropLineElementStyle absoluteXY := by
      rcases List.mem_append.mp he with h1 | h2
      · by_cases hix : draggingNodeMeta.index = hoveredNodeMeta.index
        · simp [hix] at h1
        · simp [hix] at h1
          exact Or.inl h1
      · simp at h2
        exact Or.inr h2
    rcases hcases with he1 | he1 <;> subst he1 <;>
      exact ⟨fun g hg => Effect.noConfusion hg, fun dm hdm => Effect.noConfusion hdm⟩

/-- Witness for C6: moving off the concrete stacked group, the trace carries the
un-stack callback right before the stacked marker is cleared and the destination
rewritten. -/
theorem unstack_callback_fires_before_overwrite_witness :
    wCtxChild.isLonely = false
    ∧ isComeFromStackedGroup wStStacked = true
    ∧ ∃ pre,
        onMoveForItems wCtxChild wStStacked wDragMeta wGroupMeta (50, 1)
          = pre
            ++ [ Effect.callbackStackGroup
                  { identifier := wCtxChild.identifier
                    groupIdentifier := wCtxChild.groupIdentifier
                    index := wCtxChild.index
                    isGroup := wCtxChild.isGroup
                    nextGroupIdentifier := none }
               , Effect.setStackedGroupIdentifier none
               , Effect.setDestinationMeta
                  (some { groupIdentifier := wCtxChild.groupIdentifier
                          index := some (getDropLinePositionItemIndex
                            (getDropLineDirectionFromXY (50, 1) wGroupMeta wCtxChild.direction)
                            wDragMeta.index wDragMeta.groupIdentifier
                            wGroupMeta.index wGroupMeta.groupIdentifier) }) ]
        ∧ ∀ e ∈ pre,
            (∀ g, e ≠ Effect.setStackedGroupIdentifier g)
            ∧ (∀ dm, e ≠ Effect.setDestinationMeta dm) :=
  ⟨rfl, rfl,
    unstack_callback_fires_before_overwrite wCtxChild wStStacked wDragMeta wGroupMeta
      (50, 1) rfl rfl⟩

/-- C8: on a locked item the drag-start, continuous-drag and drag-end binders do
nothing, while the hover and move binders behave identically whatever the lock flags
are set to, so a locked item still acts as a hover or stack target. -/
theorem locked_suppresses_drag_not_hover
    (ctx : ItemCtx) (st : ListState) (rect : Rect) (absoluteXY : ℤ × ℤ)
    (down : Bool) (movement : ℤ × ℤ) (b1 b2 : Bool)
    (hl : isLocked ctx = true) :
    (draggableOnDragStart ctx rect = []
      ∧ draggableOnDrag ctx down movement = []
      ∧ draggableOnDragEnd ctx st = [])
    ∧ binderOnHover { ctx with propIsLocked := b1, isDisabled := b2 } st rect
        = binderOnHover ctx st rect
    ∧ binderOnMove { ctx with propIsLocked := b1, isDisabled := b2 } st absoluteXY
        = binderOnMove ctx st absoluteXY := by
  refine ⟨⟨?_, ?_, ?_⟩, rfl, rfl⟩
  · simp [draggableOnDragStart, hl]
  · simp [draggableOnDrag, hl]
  · simp [draggableOnDragEnd, hl]

/-- Witness for C8 on a concrete locked item during a drag of another item. -/
theorem locked_suppresses_drag_not_hover_witness :
    (draggableOnDragStart wCtxLocked wRect = []
      ∧ draggableOnDrag wCtxLocked true (3, 4) = []
      ∧ draggableOnDragEnd wCtxLocked wStDrag = [])
    ∧ binderOnHover { wCtxLocked with propIsLocked := false, isDisabled := false } wStDrag wRect
        = binderOnHover wCtxLocked wStDrag wRect
    ∧ binderOnMove { wCtxLocked with propIsLocked := false, isDisabled := false } wStDrag (50, 10)
        = binderOnMove wCtxLocked wStDrag (50, 10) :=
  locked_suppresses_drag_not_hover wCtxLocked wStDrag wRect (50, 10) true (3, 4)
    false false rfl

/-- C9: counterexample — the node recorded at drag start on a concrete unlocked item
(identifier 5, parent chain [0]) carries ancestorIdentifiers [0, 5], which contains
the identifier of the item itself, so the ancestor list is not limited to the chain
from the root to the immediate parent. -/
theorem nodeMeta_ancestors_include_self_counterexample :
    (applyEffects initialListState (draggableOnDragStart wCtxChild wRect)).draggingNodeMeta
      = some (getNodeMeta wRect 5 (some 0) [0, 5] 1 false)
    ∧ (getNodeMeta wRect 5 (some 0) [0, 5] 1 false).identifier
        ∈ (getNodeMeta wRect 5 (some 0) [0, 5] 1 false).ancestorIdentifiers := by
  exact ⟨rfl, by simp [getNodeMeta]⟩

/-- C9 (amended): every NodeMeta produced at drag start or at a valid hover carries
ancestorIdentifiers equal to the chain of the surrounding group context (root to the
immediate parent) with the own identifier of the item appended as the last element. -/
theorem nodeMeta_ancestors_are_chain_plus_self
    (ctx : ItemCtx) (st st2 : ListState) (rect : Rect) (d : NodeMeta)
    (hl : isLocked ctx = false)
    (hdrag : st.draggingNodeMeta = some d)
    (hself : (ctx.identifier == d.identifier) = false)
    (hanc : checkIsAncestorItem d.identifier (ancestorIdentifiers ctx) = false) :
    (applyEffects st2 (draggableOnDragStart ctx rect)).draggingNodeMeta
        = some (getNodeMeta rect ctx.identifier ctx.groupIdentifier
            (ctx.groupAncestorIdentifiers ++ [ctx.identifier]) ctx.index ctx.isGroup)
    ∧ (applyEffects st (onHover ctx st rect)).hoveredNodeMeta
        = some (getNodeMeta rect ctx.identifier ctx.groupIdentifier
            (ctx.groupAncestorIdentifiers ++ [ctx.identifier]) ctx.index ctx.isGroup)
    ∧ (getNodeMeta rect ctx.identifier ctx.groupIdentifier
          (ctx.groupAncestorIdentifiers ++ [ctx.identifier]) ctx.index
          ctx.isGroup).ancestorIdentifiers
        = ctx.groupAncestorIdentifiers ++ [ctx.identifier] := by
  refine ⟨?_, ?_, rfl⟩
  · simp [draggableOnDragStart, hl, onDragStart, ancestorIdentifiers, applyEffects, applyEffect]
  · have hanc2 :
        checkIsAncestorItem d.identifier (ctx.groupAncestorIdentifiers ++ [ctx.identifier])
          = false := by
      simpa [ancestorIdentifiers] using hanc
    simp [onHover, hdrag, hself, hanc2, ancestorIdentifiers, applyEffects, applyEffect]

/-- Witness for the amended C9 on a concrete unlocked item hovered during the drag of
an unrelated item. -/
theorem nodeMeta_ancestors_are_chain_plus_self_witness :
    (applyEffects initialListState (draggableOnDragStart wCtxChild wRect)).draggingNodeMeta
        = some (getNodeMeta wRect wCtxChild.identifier wCtxChild.groupIdentifier
            (wCtxChild.groupAncestorIdentifiers ++ [wCtxChild.identifier]) wCtxChild.index
            wCtxChild.isGroup)
    ∧ (applyEffects wStDrag (onHover wCtxChild wStDrag wRect)).hoveredNodeMeta
        = some (getNodeMeta wRect wCtxChild.identifier wCtxChild.groupIdentifier
            (wCtxChild.groupAncestorIdentifiers ++ [wCtxChild.identifier]) wCtxChild.index
            wCtxChild.isGroup) := by
  have h9 := nodeMeta_ancestors_are_chain_plus_self wCtxChild wStDrag initialListState wRect
    wDragMeta rfl rfl (by decide) (by decide)
  exact ⟨h9.1, h9.2.1⟩

end Sortful
